import Mathlib

deriving instance DecidableEq for Except

/-
Verification development for the pyzone module (src/pyzone/__init__.py),
a wrapper around the Solaris zone administration command-line tools.

The module is embedded shallowly:

  * external process execution is modelled by an environment
    (`Env`) mapping an argument vector to a (returncode, stdout) pair,
    together with a trace of every argument vector that was spawned;
  * Python exceptions are modelled by the `Err` inductive and
    computations by the monad `M`, a reader (environment) plus
    writer (spawned-command trace) plus exception monad;
  * the zone attribute dictionary (Python dict keyed by the integers of
    ZONE_ENTRY) is modelled by an association list with dict update
    semantics (`dset` / `dget`).

Every definition mirrors the corresponding Python function of the source,
including its bugs (the SunOS branch of check_user_permissions that
returns a boolean instead of raising, the missing tuple comma in clone,
the undefined install_cmd in clone, the malformed format string in
add_property).
-/

namespace Pyzone

abbrev Argv := List String

/-- Tool path constant from the source. -/
def CMD_ZONEADM : String := "/usr/sbin/zoneadm"

/-- Tool path constant from the source. -/
def CMD_ZONECFG : String := "/usr/sbin/zonecfg"

/-- Tool path constant from the source. -/
def CMD_ZLOGIN : String := "/usr/sbin/zlogin"

/-- Tool path constant from the source. -/
def CMD_PFEXEC : String := "/usr/bin/pfexec"

/-- The values of the ZONE_ENTRY dict: column indices of zoneadm list -p
output (ZID 0, ZNAME 1, ZSTATE 2, ZROOT 3, ZUUID 4, ZBRAND 5, ZIPTYPE 6). -/
def ZONE_ENTRY_values : List Int := [0, 1, 2, 3, 4, 5, 6]

def ZONE_ENTRY_ZNAME : Int := 1
def ZONE_ENTRY_ZSTATE : Int := 2

/-- The ZONE_STATE dict of the source: raw state string to state code. -/
def ZONE_STATE : List (String × Nat) :=
  [("running", 0), ("installed", 1), ("configured", 2),
   ("ready", 3), ("incomplete", 4)]

def ZS_running : Nat := 0
def ZS_installed : Nat := 1
def ZS_configured : Nat := 2
def ZS_ready : Nat := 3
def ZS_incomplete : Nat := 4

/-- Python dict lookup ZONE_STATE[s]; none models the KeyError case. -/
def ZONE_STATE_lookup (s : String) : Option Nat :=
  (ZONE_STATE.find? (fun p => p.1 == s)).map Prod.snd

/-- Python exceptions raised by the module.  zoneStateError is the
ZoneException raised by Zone._zone_in_states; the source interpolates the
zone name, the allowed state tuple and the observed state into the
exception message, so we keep them as structured payload. -/
inductive Err where
  | privilegesError (msg : String)
  | zoneError (msg : String)
  | zoneStateError (zname : String) (allowed : List Nat) (observed : Nat)
  | osError (cmd : Argv) (ret : Nat)
  | keyError
  | indexError
  | typeError
  | valueError
  | nameError
deriving DecidableEq, Repr

/-- Return values of the Zone methods: captured stdout, the print_cmd list
of argument vectors, or Python None. -/
inductive PyRet where
  | outStr (s : String)
  | cmds (l : List Argv)
  | pyNone
deriving DecidableEq, Repr

/-- The external world: platform name (os.uname()[0]), real uid
(os.getuid()), and for each spawned argument vector the returncode and
captured stdout of the process. -/
structure Env where
  uname0 : String
  uid : Nat
  spawnRes : Argv → Nat × String

/-- Computation monad: reader of Env, writer of the trace of spawned
argument vectors, exception of Err. -/
def M (α : Type) : Type := Env → List Argv → List Argv × Except Err α

def M.pure {α : Type} (a : α) : M α := fun _ tr => (tr, Except.ok a)

def M.bind {α β : Type} (x : M α) (f : α → M β) : M β := fun env tr =>
  match x env tr with
  | (tr2, Except.ok a) => f a env tr2
  | (tr2, Except.error e) => (tr2, Except.error e)

instance instMonadM : Monad M where
  pure := M.pure
  bind := M.bind

def M.throwErr {α : Type} (e : Err) : M α := fun _ tr => (tr, Except.error e)

def M.getEnv : M Env := fun env tr => (tr, Except.ok env)

/-- subprocess.Popen of an argument vector: appends the vector to the
trace and yields the (returncode, stdout) the environment assigns it. -/
def M.spawn (cmd : Argv) : M (Nat × String) := fun env tr =>
  (tr ++ [cmd], Except.ok (env.spawnRes cmd))

def M.ofExcept {α : Type} : Except Err α → M α
  | Except.ok a => M.pure a
  | Except.error e => M.throwErr e

theorem M_bind_eq {α β : Type} (x : M α) (f : α → M β) :
    x >>= f = M.bind x f := rfl

theorem M_pure_eq {α : Type} (a : α) : (Pure.pure a : M α) = M.pure a := rfl

/-- Python str.split(sep) for a one-character separator, over the
character list of the string (kept structurally recursive so that closed
instances evaluate inside the kernel). -/
def split_char (c : Char) : List Char → List (List Char)
  | [] => [[]]
  | x :: xs =>
    match split_char c xs with
    | [] => if x = c then [[], []] else [[x]]
    | h :: t => if x = c then [] :: h :: t else (x :: h) :: t

/-- Python str.split(sep) on a String, one-character separator. -/
def py_split (s : String) (c : Char) : List String :=
  (split_char c s.data).map String.mk

/-- Python str whitespace, as stripped by str.strip(). -/
def is_py_space (c : Char) : Bool :=
  c = ' ' || c = '\t' || c = '\n' || c = '\r' || c = '\x0b' || c = '\x0c'

/-- Python str.strip(): drop leading and trailing whitespace. -/
def py_strip (s : String) : String :=
  String.mk (((s.data.dropWhile is_py_space).reverse.dropWhile is_py_space).reverse)

/-- Python sep.join(parts). -/
def py_join (sep : String) : List String → String
  | [] => ""
  | [x] => x
  | x :: y :: xs => x ++ sep ++ py_join sep (y :: xs)

/-- An item of the profiles specification passed to
check_user_permissions: either a plain profile-name string or a
conjunctive group (a nested tuple in the source). -/
inductive ProfItem where
  | pname (s : String)
  | pgroup (l : List String)
deriving BEq, DecidableEq, Repr

/-- sublist_in(lst, sublst) of the source: every element of sublst is a
member of lst.  Membership compares a plain string against the items of
lst, mirroring the Python `i not in lst` test. -/
def sublist_in (lst : List ProfItem) (sublst : List String) : Bool :=
  sublst.all (fun i => lst.contains (ProfItem.pname i))

/-- oneof(item_list, items) of the source.  The loop runs over item_list
(the profile list reported for the calling user); a list/dict element
would be checked with sublist_in, any other element is tested for
membership in items.  At the call site item_list holds only strings, so
only the membership branch can fire. -/
def oneof (item_list : List ProfItem) (items : List ProfItem) : Bool :=
  item_list.any (fun i =>
    match i with
    | ProfItem.pgroup g => sublist_in item_list g
    | ProfItem.pname s => items.contains (ProfItem.pname s))

/-- The default profiles argument of check_user_permissions. -/
def default_profiles : List ProfItem :=
  [ProfItem.pname "Primary Administrator",
   ProfItem.pgroup ["Zone Management", "Zone Security"]]

/-- The profile-list parsing of check_user_permissions:
map(lambda a: a.strip(), profiles_output.split("\n"))[:-1]. -/
def parse_profiles_output (out : String) : List String :=
  ((py_split out '\n').map py_strip).dropLast

/-- The Popen/returncode part of getoutputs: spawn the vector, raise
OSError on a non-zero returncode, otherwise return stdout.  The source
reaches exactly this code path for getoutputs(cmd, False). -/
def popen_outputs (cmd : Argv) : M String := do
  let r ← M.spawn cmd
  if r.1 ≠ 0 then M.throwErr (Err.osError cmd r.1) else Pure.pure r.2

/-- check_user_permissions of the source.  On the SunOS branch it runs the
profiles tool through getoutputs(..., False) and RETURNS the boolean
oneof result (it does not raise on a non-matching profile list); the uid
test is reached only off that branch; otherwise PrivilegesError is
raised. -/
def check_user_permissions (profiles : List ProfItem) : M (Option Bool) := do
  let env ← M.getEnv
  if env.uname0 = "SunOS" ∧ profiles ≠ [] then do
    let profiles_output ← popen_outputs ["profiles"]
    Pure.pure (some (oneof
      ((parse_profiles_output profiles_output).map ProfItem.pname) profiles))
  else if env.uid = 0 then
    Pure.pure none
  else
    M.throwErr (Err.privilegesError "Not enough privileges to perform action.")

/-- getoutputs of the source: optionally check permissions (with the
default profiles), then spawn and check the returncode. -/
def getoutputs (cmd : Argv) (check_privileges : Bool) : M String := do
  if check_privileges then do
    let _ ← check_user_permissions default_profiles
    popen_outputs cmd
  else
    popen_outputs cmd

/-- Python dict update d[k] = v on an association list: replace the value
in place when the key is present, append the pair otherwise. -/
def dset (d : List (Int × String)) (k : Int) (v : String) : List (Int × String) :=
  match d with
  | [] => [(k, v)]
  | (k2, v2) :: rest => if k2 = k then (k, v) :: rest else (k2, v2) :: dset rest k v

/-- Python dict lookup d[k]; none models the KeyError case. -/
def dget (d : List (Int × String)) (k : Int) : Option String :=
  match d with
  | [] => none
  | (k2, v2) :: rest => if k2 = k then some v2 else dget rest k

/-- A Zone object: its _zone_attr dict, keyed by ZONE_ENTRY values. -/
structure Zone where
  attrs : List (Int × String)
deriving DecidableEq, Repr

/-- Zone.set_attr of the source: accept only keys of ZONE_ENTRY.values(),
raise ZoneException otherwise. -/
def Zone.set_attr (z : Zone) (attr : Int) (value : String) : Except Err Zone :=
  if attr ∈ ZONE_ENTRY_values then Except.ok ⟨dset z.attrs attr value⟩
  else Except.error (Err.zoneError
    ("Unsupported ZONE_ENTRY attribute: " ++ toString attr ++ "."))

/-- Zone.__init__: set_attr(ZONE_ENTRY[ZNAME], name) on an empty dict;
that call always succeeds because 1 is a ZONE_ENTRY value. -/
def Zone.initZ (name : String) : Zone := ⟨dset [] ZONE_ENTRY_ZNAME name⟩

/-- The zoneadm single-zone listing vector built by refresh_all_info. -/
def state_cmd (name : String) : Argv := [CMD_ZONEADM, "-z", name, "list", "-p"]

/-- The loop of refresh_all_info: for each ZONE_ENTRY value, store
line_items[val] in the attribute dict (IndexError when the split line is
too short).  All indices used are nonnegative. -/
def set_fields : List (Int × String) → List String → List Int →
    Except Err (List (Int × String))
  | attrs, _, [] => Except.ok attrs
  | attrs, items, v :: rest =>
    match items.get? v.toNat with
    | some s => set_fields (dset attrs v s) items rest
    | none => Except.error Err.indexError

/-- Zone.refresh_all_info of the source: read the zone name straight from
the dict, run the single-zone listing through getoutputs (privilege
checked), split the stdout on colons and back-fill every ZONE_ENTRY
field. -/
def Zone.refresh_all_info (z : Zone) : M Zone := do
  match dget z.attrs ZONE_ENTRY_ZNAME with
  | none => M.throwErr Err.keyError
  | some name => do
    let out ← getoutputs (state_cmd name) true
    let line_items := py_split out ':'
    let a ← M.ofExcept (set_fields z.attrs line_items ZONE_ENTRY_values)
    Pure.pure (Zone.mk a)

/-- Zone.get_attr of the source; the refreshed Zone object is returned
alongside the value because the source mutates self. -/
def Zone.get_attr (z : Zone) (attr : Int) (refresh : Bool) : M (Zone × String) := do
  let z2 ← if refresh then z.refresh_all_info else Pure.pure z
  match dget z2.attrs attr with
  | some v => Pure.pure (z2, v)
  | none => M.throwErr Err.keyError

/-- Zone.get_state of the source: look the refreshed raw state string up
in ZONE_STATE (KeyError for an unknown string). -/
def Zone.get_state (z : Zone) (refresh : Bool) : M (Zone × Nat) := do
  let r ← z.get_attr ZONE_ENTRY_ZSTATE refresh
  match ZONE_STATE_lookup r.2 with
  | some n => Pure.pure (r.1, n)
  | none => M.throwErr Err.keyError

/-- Zone.get_name of the source with its default refresh=False. -/
def Zone.get_name (z : Zone) : M String := do
  let r ← z.get_attr ZONE_ENTRY_ZNAME false
  Pure.pure r.2

/-- The state_list argument of _zone_in_states: the proper call sites pass
a tuple of ZONE_STATE values; clone passes a bare int because its tuple
is missing the trailing comma. -/
inductive StatesArg where
  | tupleArg (l : List Nat)
  | intArg (n : Nat)
deriving DecidableEq, Repr

/-- Zone._zone_in_states of the source: re-query the live state; a
non-iterable state_list makes the `in` test raise TypeError; a state
outside the tuple raises the ZoneException whose message names the zone
(get_name), the allowed tuple and the observed state (a second get_state
re-query, as in the source message interpolation). -/
def Zone.zone_in_states (z : Zone) (state_list : StatesArg) : M Zone := do
  let r ← z.get_state true
  match state_list with
  | StatesArg.intArg _ => M.throwErr Err.typeError
  | StatesArg.tupleArg l =>
    if r.2 ∈ l then Pure.pure r.1
    else do
      let name ← r.1.get_name
      let r2 ← r.1.get_state true
      M.throwErr (Err.zoneStateError name l r2.2)

/-- Zone.boot of the source. -/
def Zone.boot (z : Zone) (print_cmd : Bool) : M PyRet := do
  let _ ← check_user_permissions default_profiles
  let z2 ← z.zone_in_states (StatesArg.tupleArg [ZS_installed])
  let name ← z2.get_name
  let boot_cmd := [CMD_PFEXEC, CMD_ZONEADM, "-z", name, "boot"]
  if print_cmd then Pure.pure (PyRet.cmds [boot_cmd])
  else do
    let out ← getoutputs boot_cmd true
    Pure.pure (PyRet.outStr out)

/-- Zone.ready of the source. -/
def Zone.ready (z : Zone) : M PyRet := do
  let _ ← check_user_permissions default_profiles
  let z2 ← z.zone_in_states (StatesArg.tupleArg [ZS_installed])
  let name ← z2.get_name
  let ready_cmd := [CMD_PFEXEC, CMD_ZONEADM, "-z", name, "ready"]
  let out ← getoutputs ready_cmd true
  Pure.pure (PyRet.outStr out)

/-- Zone.shutdown of the source. -/
def Zone.shutdown (z : Zone) : M PyRet := do
  let _ ← check_user_permissions default_profiles
  let z2 ← z.zone_in_states (StatesArg.tupleArg [ZS_running])
  let name ← z2.get_name
  let shutdown_cmd := [CMD_PFEXEC, CMD_ZONEADM, "-z", name, "shutdown"]
  let out ← getoutputs shutdown_cmd true
  Pure.pure (PyRet.outStr out)

/-- Zone.halt of the source. -/
def Zone.halt (z : Zone) : M PyRet := do
  let _ ← check_user_permissions default_profiles
  let z2 ← z.zone_in_states (StatesArg.tupleArg [ZS_running])
  let name ← z2.get_name
  let halt_cmd := [CMD_PFEXEC, CMD_ZONEADM, "-z", name, "halt"]
  let out ← getoutputs halt_cmd true
  Pure.pure (PyRet.outStr out)

/-- Zone.reboot of the source (zoneadm shutdown -r). -/
def Zone.reboot (z : Zone) : M PyRet := do
  let _ ← check_user_permissions default_profiles
  let z2 ← z.zone_in_states (StatesArg.tupleArg [ZS_running])
  let name ← z2.get_name
  let reboot_cmd := [CMD_PFEXEC, CMD_ZONEADM, "-z", name, "shutdown", "-r"]
  let out ← getoutputs reboot_cmd true
  Pure.pure (PyRet.outStr out)

/-- Zone.install of the source. -/
def Zone.install (z : Zone) (print_cmd : Bool) : M PyRet := do
  let _ ← check_user_permissions default_profiles
  let z2 ← z.zone_in_states (StatesArg.tupleArg [ZS_configured])
  let name ← z2.get_name
  let install_cmd := [CMD_PFEXEC, CMD_ZONEADM, "-z", name, "install"]
  if print_cmd then Pure.pure (PyRet.cmds [install_cmd])
  else do
    let out ← getoutputs install_cmd true
    Pure.pure (PyRet.outStr out)

/-- Zone.clone of the source.  The state_list argument is the bare int
ZONE_STATE[installed] because the source tuple is missing its comma, so
the guard always raises TypeError; and the non-print branch references
the undefined name install_cmd (NameError). -/
def Zone.clone (z : Zone) (source_zone : Zone) (print_cmd : Bool) : M PyRet := do
  let sz2 ← source_zone.zone_in_states (StatesArg.intArg ZS_installed)
  let name ← z.get_name
  let sname ← sz2.get_name
  let clone_cmd := [CMD_PFEXEC, CMD_ZONEADM, "-z", name, "clone", sname]
  if print_cmd then Pure.pure (PyRet.cmds [clone_cmd])
  else M.throwErr Err.nameError

/-- Zone.uninstall of the source. -/
def Zone.uninstall (z : Zone) : M PyRet := do
  let _ ← check_user_permissions default_profiles
  let z2 ← z.zone_in_states (StatesArg.tupleArg [ZS_installed, ZS_incomplete])
  let name ← z2.get_name
  let uninstall_cmd := [CMD_PFEXEC, CMD_ZONEADM, "-z", name, "uninstall", "-F"]
  let out ← getoutputs uninstall_cmd true
  Pure.pure (PyRet.outStr out)

/-- Zone.delete of the source (zonecfg delete -F). -/
def Zone.delete (z : Zone) : M PyRet := do
  let _ ← check_user_permissions default_profiles
  let z2 ← z.zone_in_states (StatesArg.tupleArg [ZS_configured, ZS_incomplete])
  let name ← z2.get_name
  let del_cmd := [CMD_PFEXEC, CMD_ZONECFG, "-z", name, "delete", "-F"]
  let out ← getoutputs del_cmd true
  Pure.pure (PyRet.outStr out)

/-- Zone.execute of the source: zlogin, with -l user only when the user
argument is truthy (a non-empty string). -/
def Zone.execute (z : Zone) (cmd : String) (user : Option String)
    (print_cmd : Bool) : M PyRet := do
  let z2 ← z.zone_in_states (StatesArg.tupleArg [ZS_running])
  let name ← z2.get_name
  let zlogin_cmd := [CMD_PFEXEC, CMD_ZLOGIN]
    ++ (match user with
        | some u => if u = "" then [] else ["-l", u]
        | none => [])
    ++ [name, cmd]
  if print_cmd then Pure.pure (PyRet.cmds [zlogin_cmd])
  else do
    let out ← getoutputs zlogin_cmd true
    Pure.pure (PyRet.outStr out)

/-- The default value of the user parameter of Zone.execute. -/
def execute_default_user : Option String := some "root"

/-- Zone.remove_property of the source. -/
def Zone.remove_property (z : Zone) (property_name : String)
    (print_cmd : Bool) : M PyRet := do
  let name ← z.get_name
  let zonecfg_cmd := [CMD_PFEXEC, CMD_ZONECFG, "-z", name]
    ++ ["remove " ++ property_name ++ "; exit"]
  if print_cmd then Pure.pure (PyRet.cmds [zonecfg_cmd])
  else do
    let out ← getoutputs zonecfg_cmd true
    Pure.pure (PyRet.outStr out)

/-- The available_properties dict of Zone.add_property. -/
def available_properties : List (String × List String) :=
  [("capped-memory", ["physical", "swap", "locked"]),
   ("capped-cpu", ["ncpus"]),
   ("fs", ["dir", "special", "type"]),
   ("dataset", ["name"])]

/-- Python set equality of two key lists (mutual containment). -/
def set_eq (l1 l2 : List String) : Bool :=
  l1.all (fun x => l2.contains x) && l2.all (fun x => l1.contains x)

/-- Zone.add_property of the source.  An unsupported property name makes
the raise line itself fail with TypeError (its format string has two
placeholders but a single argument); a key-set mismatch raises
ValueError before any external command; otherwise the single zonecfg
vector with the semicolon-joined add/set/end/exit script is built, and
the success of the non-print branch returns Python None (the source has
no return there). -/
def Zone.add_property (z : Zone) (name : String) (opts : List (String × String))
    (print_cmd : Bool) : M PyRet := do
  let zname ← z.get_name
  let base := [CMD_PFEXEC, CMD_ZONECFG, "-z", zname]
  match (available_properties.find? (fun p => p.1 == name)).map Prod.snd with
  | none => M.throwErr Err.typeError
  | some req =>
    if !(set_eq (opts.map Prod.fst) req) then M.throwErr Err.valueError
    else
      let prop_part := ["add " ++ name]
        ++ opts.map (fun o => "set " ++ o.1 ++ "=" ++ o.2)
        ++ ["end", "exit"]
      let zonecfg_cmd := base ++ [py_join ";" prop_part]
      if print_cmd then Pure.pure (PyRet.cmds [zonecfg_cmd])
      else do
        let _ ← getoutputs zonecfg_cmd true
        Pure.pure PyRet.pyNone

/-- The regexp filter test of list_zones: `if pattern and not
re.match(pattern, name)`.  A None or empty pattern is falsy and filters
nothing; otherwise the abstract anchored matcher decides. -/
def keep_line (pattern : Option String) (matcher : String → String → Bool)
    (nm : String) : Bool :=
  match pattern with
  | none => true
  | some p => if p = "" then true else matcher p nm

/-- The per-line Zone construction of list_zones: Zone(line[ZNAME]) then
set_attr(item, line[item]) for every ZONE_ENTRY value (the subscript is
evaluated before the set_attr call, as in the source helper). -/
def set_attr_loop : Zone → List String → List Int → Except Err Zone
  | z, _, [] => Except.ok z
  | z, fields, v :: rest =>
    match fields.get? v.toNat with
    | none => Except.error Err.indexError
    | some s =>
      match z.set_attr v s with
      | Except.ok z2 => set_attr_loop z2 fields rest
      | Except.error e => Except.error e

def parse_zone_line (fields : List String) : Except Err Zone :=
  match fields.get? ZONE_ENTRY_ZNAME.toNat with
  | none => Except.error Err.indexError
  | some nm => set_attr_loop (Zone.initZ nm) fields ZONE_ENTRY_values

/-- The line loop of list_zones: skip empty lines, split on colons, apply
the pattern filter to the name field, build a Zone from each surviving
line.  With no (or a falsy) pattern the name field is first touched
inside Zone construction; either way the same subscript of the same
split line is read, so the early name read is observationally the
source behaviour. -/
def parse_lines (matcher : String → String → Bool) (pattern : Option String) :
    List String → Except Err (List Zone)
  | [] => Except.ok []
  | line :: rest =>
    if line = "" then parse_lines matcher pattern rest
    else
      match (py_split line ':').get? ZONE_ENTRY_ZNAME.toNat with
      | none => Except.error Err.indexError
      | some nm =>
        if keep_line pattern matcher nm then
          match parse_zone_line (py_split line ':') with
          | Except.error e => Except.error e
          | Except.ok z =>
            match parse_lines matcher pattern rest with
            | Except.error e => Except.error e
            | Except.ok zs => Except.ok (z :: zs)
        else parse_lines matcher pattern rest

/-- list_zones of the source, as a function of the stdout and returncode
of the one zoneadm list -pc invocation it performs, of the optional
pattern, and of an abstract anchored matcher standing for re.match. -/
def list_zones_out (stdout : String) (ret : Nat) (pattern : Option String)
    (matcher : String → String → Bool) : Except Err (List Zone) :=
  if ret ≠ 0 then Except.error (Err.osError [CMD_ZONEADM, "list", "-pc"] ret)
  else parse_lines matcher pattern (py_split stdout '\n')

/-
Proof infrastructure.
-/

theorem dget_dset_self (d : List (Int × String)) (k : Int) (v : String) :
    dget (dset d k v) k = some v := by
  induction d with
  | nil => simp [dset, dget]
  | cons p rest ih =>
    by_cases h : p.1 = k
    · simp [dset, dget, h]
    · simp [dset, dget, h, ih]

theorem dget_dset_ne (d : List (Int × String)) (k k2 : Int) (v : String)
    (h : k2 ≠ k) : dget (dset d k v) k2 = dget d k2 := by
  have hne : ¬ k = k2 := fun e => h e.symm
  induction d with
  | nil => simp [dset, dget, hne]
  | cons p rest ih =>
    obtain ⟨k3, v3⟩ := p
    by_cases h2 : k3 = k
    · subst h2
      simp [dset, dget, hne]
    · by_cases h3 : k3 = k2 <;> simp [dset, dget, h2, h3, ih, h]

/-- The calling principal passes the permission check without an
exception: either the SunOS branch is taken and the profiles tool exits
cleanly (that branch never raises), or the uid test is reached with the
superuser uid. -/
def AuthOk (env : Env) : Prop :=
  (env.uname0 = "SunOS" ∧ (env.spawnRes ["profiles"]).1 = 0) ∨
  (env.uname0 ≠ "SunOS" ∧ env.uid = 0)

/-- The argument vectors spawned by one check_user_permissions call. -/
def auth_trace (env : Env) : List Argv :=
  if env.uname0 = "SunOS" then [["profiles"]] else []

/-- The value returned by a non-raising check_user_permissions call. -/
def auth_ret (env : Env) : Option Bool :=
  if env.uname0 = "SunOS" then
    some (oneof ((parse_profiles_output (env.spawnRes ["profiles"]).2).map
      ProfItem.pname) default_profiles)
  else none

theorem auth_trace_mem (env : Env) (a : Argv) (h : a ∈ auth_trace env) :
    a = ["profiles"] := by
  by_cases hs : env.uname0 = "SunOS"
  · simp [auth_trace, hs] at h
    exact h
  · simp [auth_trace, hs] at h

theorem check_ok (env : Env) (hauth : AuthOk env) (tr : List Argv) :
    check_user_permissions default_profiles env tr =
      (tr ++ auth_trace env, Except.ok (auth_ret env)) := by
  rcases hauth with ⟨h1, h2⟩ | ⟨h1, h2⟩ <;>
    simp [check_user_permissions, auth_trace, auth_ret, M_bind_eq, M.bind,
      M.getEnv, M_pure_eq, M.pure, M.throwErr, popen_outputs, M.spawn,
      default_profiles, h1, h2, List.append_assoc]

theorem getoutputs_ok (env : Env) (hauth : AuthOk env) (cmd : Argv)
    (hret : (env.spawnRes cmd).1 = 0) (tr : List Argv) :
    getoutputs cmd true env tr =
      (tr ++ auth_trace env ++ [cmd], Except.ok (env.spawnRes cmd).2) := by
  simp [getoutputs, M_bind_eq, M.bind, check_ok env hauth, popen_outputs,
    M.spawn, M_pure_eq, M.pure, M.throwErr, hret]

/-- The attribute dict of a freshly constructed Zone after one
refresh_all_info against a seven-field listing line. -/
def refreshed_attrs (f0 f1 f2 f3 f4 f5 f6 : String) : List (Int × String) :=
  [(1, f1), (0, f0), (2, f2), (3, f3), (4, f4), (5, f5), (6, f6)]

theorem set_fields_initZ (n f0 f1 f2 f3 f4 f5 f6 : String) :
    set_fields (Zone.initZ n).attrs [f0, f1, f2, f3, f4, f5, f6]
      ZONE_ENTRY_values = Except.ok (refreshed_attrs f0 f1 f2 f3 f4 f5 f6) := rfl

theorem set_fields_refreshed (f0 f1 f2 f3 f4 f5 f6 : String) :
    set_fields (refreshed_attrs f0 f1 f2 f3 f4 f5 f6) [f0, f1, f2, f3, f4, f5, f6]
      ZONE_ENTRY_values = Except.ok (refreshed_attrs f0 f1 f2 f3 f4 f5 f6) := rfl

theorem refresh_zone_ok (env : Env) (hauth : AuthOk env) (z : Zone) (n : String)
    (hname : dget z.attrs 1 = some n)
    (line : String) (hret : env.spawnRes (state_cmd n) = (0, line))
    (a : List (Int × String))
    (hset : set_fields z.attrs (py_split line ':') ZONE_ENTRY_values =
      Except.ok a) (tr : List Argv) :
    z.refresh_all_info env tr =
      (tr ++ auth_trace env ++ [state_cmd n], Except.ok (Zone.mk a)) := by
  have h0 : (env.spawnRes (state_cmd n)).1 = 0 := by rw [hret]
  have h2 : (env.spawnRes (state_cmd n)).2 = line := by rw [hret]
  simp [Zone.refresh_all_info, ZONE_ENTRY_ZNAME, hname, M_bind_eq, M.bind,
    getoutputs_ok env hauth (state_cmd n) h0, h2, hset, M.ofExcept,
    M_pure_eq, M.pure]

/-- Zone.get_state with refresh on a freshly constructed Zone, under an
environment whose single-zone listing line carries the zone name in the
name column and a recognised state string in the state column. -/
theorem get_state_initZ (env : Env) (hauth : AuthOk env) (n line : String)
    (f0 f2 f3 f4 f5 f6 : String) (st : Nat)
    (hret : env.spawnRes (state_cmd n) = (0, line))
    (hsplit : py_split line ':' = [f0, n, f2, f3, f4, f5, f6])
    (hst : ZONE_STATE_lookup f2 = some st) (tr : List Argv) :
    (Zone.initZ n).get_state true env tr =
      (tr ++ auth_trace env ++ [state_cmd n],
       Except.ok (Zone.mk (refreshed_attrs f0 n f2 f3 f4 f5 f6), st)) := by
  have hname : dget (Zone.initZ n).attrs 1 = some n := rfl
  have hset : set_fields (Zone.initZ n).attrs (py_split line ':')
      ZONE_ENTRY_values = Except.ok (refreshed_attrs f0 n f2 f3 f4 f5 f6) := by
    rw [hsplit]; exact set_fields_initZ n f0 n f2 f3 f4 f5 f6
  simp [Zone.get_state, Zone.get_attr, ZONE_ENTRY_ZSTATE, M_bind_eq, M.bind,
    refresh_zone_ok env hauth (Zone.initZ n) n hname line hret _ hset,
    M_pure_eq, M.pure, refreshed_attrs, dget, hst]

/-- Zone.get_state with refresh on an already refreshed Zone, same
environment: the dict is rewritten with the same values. -/
theorem get_state_refreshed (env : Env) (hauth : AuthOk env) (n line : String)
    (f0 f2 f3 f4 f5 f6 : String) (st : Nat)
    (hret : env.spawnRes (state_cmd n) = (0, line))
    (hsplit : py_split line ':' = [f0, n, f2, f3, f4, f5, f6])
    (hst : ZONE_STATE_lookup f2 = some st) (tr : List Argv) :
    (Zone.mk (refreshed_attrs f0 n f2 f3 f4 f5 f6)).get_state true env tr =
      (tr ++ auth_trace env ++ [state_cmd n],
       Except.ok (Zone.mk (refreshed_attrs f0 n f2 f3 f4 f5 f6), st)) := by
  have hname : dget (refreshed_attrs f0 n f2 f3 f4 f5 f6) 1 = some n := rfl
  have hset : set_fields (refreshed_attrs f0 n f2 f3 f4 f5 f6)
      (py_split line ':') ZONE_ENTRY_values =
      Except.ok (refreshed_attrs f0 n f2 f3 f4 f5 f6) := by
    rw [hsplit]; exact set_fields_refreshed f0 n f2 f3 f4 f5 f6
  simp [Zone.get_state, Zone.get_attr, ZONE_ENTRY_ZSTATE, M_bind_eq, M.bind,
    refresh_zone_ok env hauth _ n hname line hret _ hset,
    M_pure_eq, M.pure, refreshed_attrs, dget, hst]

/-- The spawned vectors of one failing state guard: a permission check
and the listing re-query, each twice (the exception message re-queries
the state a second time). -/
def guard_trace (env : Env) (n : String) : List Argv :=
  auth_trace env ++ [state_cmd n] ++ auth_trace env ++ [state_cmd n]

theorem zone_in_states_fail (env : Env) (hauth : AuthOk env) (n line : String)
    (f0 f2 f3 f4 f5 f6 : String) (st : Nat) (l : List Nat)
    (hret : env.spawnRes (state_cmd n) = (0, line))
    (hsplit : py_split line ':' = [f0, n, f2, f3, f4, f5, f6])
    (hst : ZONE_STATE_lookup f2 = some st)
    (hnot : st ∉ l) (tr : List Argv) :
    (Zone.initZ n).zone_in_states (StatesArg.tupleArg l) env tr =
      (tr ++ guard_trace env n, Except.error (Err.zoneStateError n l st)) := by
  have hname : dget (refreshed_attrs f0 n f2 f3 f4 f5 f6) 1 = some n := rfl
  simp [Zone.zone_in_states, M_bind_eq, M.bind,
    get_state_initZ env hauth n line f0 f2 f3 f4 f5 f6 st hret hsplit hst,
    get_state_refreshed env hauth n line f0 f2 f3 f4 f5 f6 st hret hsplit hst,
    Zone.get_name, Zone.get_attr, ZONE_ENTRY_ZNAME, hname, M_pure_eq, M.pure,
    M.throwErr, hnot, guard_trace]

theorem zone_in_states_pass (env : Env) (hauth : AuthOk env) (n line : String)
    (f0 f2 f3 f4 f5 f6 : String) (st : Nat) (l : List Nat)
    (hret : env.spawnRes (state_cmd n) = (0, line))
    (hsplit : py_split line ':' = [f0, n, f2, f3, f4, f5, f6])
    (hst : ZONE_STATE_lookup f2 = some st)
    (hmem : st ∈ l) (tr : List Argv) :
    (Zone.initZ n).zone_in_states (StatesArg.tupleArg l) env tr =
      (tr ++ auth_trace env ++ [state_cmd n],
       Except.ok (Zone.mk (refreshed_attrs f0 n f2 f3 f4 f5 f6))) := by
  simp [Zone.zone_in_states, M_bind_eq, M.bind,
    get_state_initZ env hauth n line f0 f2 f3 f4 f5 f6 st hret hsplit hst,
    M_pure_eq, M.pure, hmem]

theorem mem_guard_trace (env : Env) (n : String) (a : Argv)
    (h : a ∈ guard_trace env n) : a = ["profiles"] ∨ a = state_cmd n := by
  simp only [guard_trace, List.mem_append, List.mem_singleton] at h
  rcases h with ((h | h) | h) | h
  · exact Or.inl (auth_trace_mem env a h)
  · exact Or.inr h
  · exact Or.inl (auth_trace_mem env a h)
  · exact Or.inr h

theorem mem_check_guard (env : Env) (n : String) (a : Argv)
    (h : a ∈ auth_trace env ++ guard_trace env n) :
    a = ["profiles"] ∨ a = state_cmd n := by
  rcases List.mem_append.mp h with h | h
  · exact Or.inl (auth_trace_mem env a h)
  · exact mem_guard_trace env n a h

theorem pfexec_vec_ne_profiles (rest : List String) :
    CMD_PFEXEC :: rest ≠ ["profiles"] := by
  intro h
  injection h with h1 _
  exact absurd h1 (by decide)

theorem pfexec_vec_ne_state_cmd (rest : List String) (n : String) :
    CMD_PFEXEC :: rest ≠ state_cmd n := by
  intro h
  simp only [state_cmd] at h
  injection h with h1 _
  exact absurd h1 (by decide)

/-- A vector prefixed with the privilege-elevation tool (every mutating
command of the module) is never among the vectors spawned by a check
followed by a failing state guard. -/
theorem pfexec_not_in_check_guard (env : Env) (n : String) (rest : List String) :
    CMD_PFEXEC :: rest ∉ auth_trace env ++ guard_trace env n := by
  intro h
  rcases mem_check_guard env n _ h with h | h
  · exact pfexec_vec_ne_profiles rest h
  · exact pfexec_vec_ne_state_cmd rest n h

theorem pfexec_not_in_guard (env : Env) (n : String) (rest : List String) :
    CMD_PFEXEC :: rest ∉ guard_trace env n := by
  intro h
  rcases mem_guard_trace env n _ h with h | h
  · exact pfexec_vec_ne_profiles rest h
  · exact pfexec_vec_ne_state_cmd rest n h

section GuardFail

variable (env : Env) (n line : String) (f0 f2 f3 f4 f5 f6 : String) (st : Nat)

theorem boot_guard_fail (hauth : AuthOk env)
    (hret : env.spawnRes (state_cmd n) = (0, line))
    (hsplit : py_split line ':' = [f0, n, f2, f3, f4, f5, f6])
    (hst : ZONE_STATE_lookup f2 = some st)
    (hnot : st ∉ [ZS_installed]) (pc : Bool) :
    (Zone.initZ n).boot pc env [] =
      (auth_trace env ++ guard_trace env n,
       Except.error (Err.zoneStateError n [ZS_installed] st)) := by
  simp [Zone.boot, M_bind_eq, M.bind, check_ok env hauth,
    zone_in_states_fail env hauth n line f0 f2 f3 f4 f5 f6 st
      [ZS_installed] hret hsplit hst hnot]

theorem ready_guard_fail (hauth : AuthOk env)
    (hret : env.spawnRes (state_cmd n) = (0, line))
    (hsplit : py_split line ':' = [f0, n, f2, f3, f4, f5, f6])
    (hst : ZONE_STATE_lookup f2 = some st)
    (hnot : st ∉ [ZS_installed]) :
    (Zone.initZ n).ready env [] =
      (auth_trace env ++ guard_trace env n,
       Except.error (Err.zoneStateError n [ZS_installed] st)) := by
  simp [Zone.ready, M_bind_eq, M.bind, check_ok env hauth,
    zone_in_states_fail env hauth n line f0 f2 f3 f4 f5 f6 st
      [ZS_installed] hret hsplit hst hnot]

theorem shutdown_guard_fail (hauth : AuthOk env)
    (hret : env.spawnRes (state_cmd n) = (0, line))
    (hsplit : py_split line ':' = [f0, n, f2, f3, f4, f5, f6])
    (hst : ZONE_STATE_lookup f2 = some st)
    (hnot : st ∉ [ZS_running]) :
    (Zone.initZ n).shutdown env [] =
      (auth_trace env ++ guard_trace env n,
       Except.error (Err.zoneStateError n [ZS_running] st)) := by
  simp [Zone.shutdown, M_bind_eq, M.bind, check_ok env hauth,
    zone_in_states_fail env hauth n line f0 f2 f3 f4 f5 f6 st
      [ZS_running] hret hsplit hst hnot]

theorem halt_guard_fail (hauth : AuthOk env)
    (hret : env.spawnRes (state_cmd n) = (0, line))
    (hsplit : py_split line ':' = [f0, n, f2, f3, f4, f5, f6])
    (hst : ZONE_STATE_lookup f2 = some st)
    (hnot : st ∉ [ZS_running]) :
    (Zone.initZ n).halt env [] =
      (auth_trace env ++ guard_trace env n,
       Except.error (Err.zoneStateError n [ZS_running] st)) := by
  simp [Zone.halt, M_bind_eq, M.bind, check_ok env hauth,
    zone_in_states_fail env hauth n line f0 f2 f3 f4 f5 f6 st
      [ZS_running] hret hsplit hst hnot]

theorem reboot_guard_fail (hauth : AuthOk env)
    (hret : env.spawnRes (state_cmd n) = (0, line))
    (hsplit : py_split line ':' = [f0, n, f2, f3, f4, f5, f6])
    (hst : ZONE_STATE_lookup f2 = some st)
    (hnot : st ∉ [ZS_running]) :
    (Zone.initZ n).reboot env [] =
      (auth_trace env ++ guard_trace env n,
       Except.error (Err.zoneStateError n [ZS_running] st)) := by
  simp [Zone.reboot, M_bind_eq, M.bind, check_ok env hauth,
    zone_in_states_fail env hauth n line f0 f2 f3 f4 f5 f6 st
      [ZS_running] hret hsplit hst hnot]

theorem install_guard_fail (hauth : AuthOk env)
    (hret : env.spawnRes (state_cmd n) = (0, line))
    (hsplit : py_split line ':' = [f0, n, f2, f3, f4, f5, f6])
    (hst : ZONE_STATE_lookup f2 = some st)
    (hnot : st ∉ [ZS_configured]) (pc : Bool) :
    (Zone.initZ n).install pc env [] =
      (auth_trace env ++ guard_trace env n,
       Except.error (Err.zoneStateError n [ZS_configured] st)) := by
  simp [Zone.install, M_bind_eq, M.bind, check_ok env hauth,
    zone_in_states_fail env hauth n line f0 f2 f3 f4 f5 f6 st
      [ZS_configured] hret hsplit hst hnot]

theorem uninstall_guard_fail (hauth : AuthOk env)
    (hret : env.spawnRes (state_cmd n) = (0, line))
    (hsplit : py_split line ':' = [f0, n, f2, f3, f4, f5, f6])
    (hst : ZONE_STATE_lookup f2 = some st)
    (hnot : st ∉ [ZS_installed, ZS_incomplete]) :
    (Zone.initZ n).uninstall env [] =
      (auth_trace env ++ guard_trace env n,
       Except.error (Err.zoneStateError n [ZS_installed, ZS_incomplete] st)) := by
  simp [Zone.uninstall, M_bind_eq, M.bind, check_ok env hauth,
    zone_in_states_fail env hauth n line f0 f2 f3 f4 f5 f6 st
      [ZS_installed, ZS_incomplete] hret hsplit hst hnot]

theorem delete_guard_fail (hauth : AuthOk env)
    (hret : env.spawnRes (state_cmd n) = (0, line))
    (hsplit : py_split line ':' = [f0, n, f2, f3, f4, f5, f6])
    (hst : ZONE_STATE_lookup f2 = some st)
    (hnot : st ∉ [ZS_configured, ZS_incomplete]) :
    (Zone.initZ n).delete env [] =
      (auth_trace env ++ guard_trace env n,
       Except.error (Err.zoneStateError n [ZS_configured, ZS_incomplete] st)) := by
  simp [Zone.delete, M_bind_eq, M.bind, check_ok env hauth,
    zone_in_states_fail env hauth n line f0 f2 f3 f4 f5 f6 st
      [ZS_configured, ZS_incomplete] hret hsplit hst hnot]

theorem execute_guard_fail (hauth : AuthOk env)
    (hret : env.spawnRes (state_cmd n) = (0, line))
    (hsplit : py_split line ':' = [f0, n, f2, f3, f4, f5, f6])
    (hst : ZONE_STATE_lookup f2 = some st)
    (hnot : st ∉ [ZS_running]) (c : String) (user : Option String) (pc : Bool) :
    (Zone.initZ n).execute c user pc env [] =
      (guard_trace env n,
       Except.error (Err.zoneStateError n [ZS_running] st)) := by
  simp [Zone.execute, M_bind_eq, M.bind,
    zone_in_states_fail env hauth n line f0 f2 f3 f4 f5 f6 st
      [ZS_running] hret hsplit hst hnot]

end GuardFail

/-- After running the operation op from an empty trace, the operation has
failed with the StateError naming zone n, the allowed set and the state
observed at the fresh re-query, and the mutating vector vec was never
spawned. -/
def guard_blocked (n : String) (st : Nat) (op : Env → List Argv → List Argv × Except Err PyRet)
    (env : Env) (allowed : List Nat) (vec : Argv) : Prop :=
  (op env []).2 = Except.error (Err.zoneStateError n allowed st) ∧
  vec ∉ (op env []).1

/-- C1: for every lifecycle operation (boot, ready, shutdown, halt,
reboot, install, uninstall, delete, execute), whenever the freshly
re-queried live state st of the zone lies outside the allowed state set
of that particular operation, the call fails with the ZoneException
(StateError) naming the zone, the allowed set and the observed state,
and the mutating argument vector of the operation is never spawned.
Each conjunct carries its own membership condition, so for each
operation the statement covers every recognised state outside that
operation's allowed set.  The common hypotheses state only that the
caller passes the permission check, that the single-zone re-query exits
cleanly with a seven-field line carrying the zone name in the name
column, and that the state column holds a recognised state string
mapping to st. -/
theorem c1_state_guard_blocks (env : Env) (n line : String)
    (f0 f2 f3 f4 f5 f6 : String) (st : Nat) (c : String)
    (hauth : AuthOk env)
    (hret : env.spawnRes (state_cmd n) = (0, line))
    (hsplit : py_split line ':' = [f0, n, f2, f3, f4, f5, f6])
    (hst : ZONE_STATE_lookup f2 = some st) :
    (st ∉ [ZS_installed] →
      guard_blocked n st ((Zone.initZ n).boot false) env [ZS_installed]
        [CMD_PFEXEC, CMD_ZONEADM, "-z", n, "boot"])
    ∧ (st ∉ [ZS_installed] →
      guard_blocked n st ((Zone.initZ n).ready) env [ZS_installed]
        [CMD_PFEXEC, CMD_ZONEADM, "-z", n, "ready"])
    ∧ (st ∉ [ZS_running] →
      guard_blocked n st ((Zone.initZ n).shutdown) env [ZS_running]
        [CMD_PFEXEC, CMD_ZONEADM, "-z", n, "shutdown"])
    ∧ (st ∉ [ZS_running] →
      guard_blocked n st ((Zone.initZ n).halt) env [ZS_running]
        [CMD_PFEXEC, CMD_ZONEADM, "-z", n, "halt"])
    ∧ (st ∉ [ZS_running] →
      guard_blocked n st ((Zone.initZ n).reboot) env [ZS_running]
        [CMD_PFEXEC, CMD_ZONEADM, "-z", n, "shutdown", "-r"])
    ∧ (st ∉ [ZS_configured] →
      guard_blocked n st ((Zone.initZ n).install false) env [ZS_configured]
        [CMD_PFEXEC, CMD_ZONEADM, "-z", n, "install"])
    ∧ (st ∉ [ZS_installed, ZS_incomplete] →
      guard_blocked n st ((Zone.initZ n).uninstall) env
        [ZS_installed, ZS_incomplete]
        [CMD_PFEXEC, CMD_ZONEADM, "-z", n, "uninstall", "-F"])
    ∧ (st ∉ [ZS_configured, ZS_incomplete] →
      guard_blocked n st ((Zone.initZ n).delete) env
        [ZS_configured, ZS_incomplete]
        [CMD_PFEXEC, CMD_ZONECFG, "-z", n, "delete", "-F"])
    ∧ (st ∉ [ZS_running] →
      guard_blocked n st ((Zone.initZ n).execute c execute_default_user false)
        env [ZS_running]
        [CMD_PFEXEC, CMD_ZLOGIN, "-l", "root", n, c]) := by
  simp only [guard_blocked]
  refine ⟨fun hn => ?_, fun hn => ?_, fun hn => ?_, fun hn => ?_, fun hn => ?_,
    fun hn => ?_, fun hn => ?_, fun hn => ?_, fun hn => ?_⟩
  · have hb := boot_guard_fail env n line f0 f2 f3 f4 f5 f6 st hauth hret hsplit hst hn false
    exact ⟨by rw [hb], by rw [hb]; exact pfexec_not_in_check_guard env n _⟩
  · have hrd := ready_guard_fail env n line f0 f2 f3 f4 f5 f6 st hauth hret hsplit hst hn
    exact ⟨by rw [hrd], by rw [hrd]; exact pfexec_not_in_check_guard env n _⟩
  · have hsd := shutdown_guard_fail env n line f0 f2 f3 f4 f5 f6 st hauth hret hsplit hst hn
    exact ⟨by rw [hsd], by rw [hsd]; exact pfexec_not_in_check_guard env n _⟩
  · have hha := halt_guard_fail env n line f0 f2 f3 f4 f5 f6 st hauth hret hsplit hst hn
    exact ⟨by rw [hha], by rw [hha]; exact pfexec_not_in_check_guard env n _⟩
  · have hrb := reboot_guard_fail env n line f0 f2 f3 f4 f5 f6 st hauth hret hsplit hst hn
    exact ⟨by rw [hrb], by rw [hrb]; exact pfexec_not_in_check_guard env n _⟩
  · have hin := install_guard_fail env n line f0 f2 f3 f4 f5 f6 st hauth hret hsplit hst hn false
    exact ⟨by rw [hin], by rw [hin]; exact pfexec_not_in_check_guard env n _⟩
  · have hun := uninstall_guard_fail env n line f0 f2 f3 f4 f5 f6 st hauth hret hsplit hst hn
    exact ⟨by rw [hun], by rw [hun]; exact pfexec_not_in_check_guard env n _⟩
  · have hde := delete_guard_fail env n line f0 f2 f3 f4 f5 f6 st hauth hret hsplit hst hn
    exact ⟨by rw [hde], by rw [hde]; exact pfexec_not_in_check_guard env n _⟩
  · have hex := execute_guard_fail env n line f0 f2 f3 f4 f5 f6 st hauth hret hsplit hst hn
      c execute_default_user false
    exact ⟨by rw [hex], by rw [hex]; exact pfexec_not_in_guard env n _⟩

/-- A concrete environment for the C1 witness: a non-SunOS superuser and
a listing that reports zone z1 in the running state. -/
def envC1 : Env :=
  { uname0 := "Linux", uid := 0,
    spawnRes := fun a =>
      if a = state_cmd "z1" then (0, "7:z1:running:/zones/z1:u1:solaris:shared")
      else (1, "") }

/-- A second concrete environment for the C1 witness: a non-SunOS
superuser and a listing that reports zone z2 in the installed state. -/
def envC1b : Env :=
  { uname0 := "Linux", uid := 0,
    spawnRes := fun a =>
      if a = state_cmd "z2" then (0, "1:z2:installed:/zones/z2:u2:solaris:shared")
      else (1, "") }

/-- Witness for C1: boot, ready, install, uninstall and delete blocked on
zone z1 observed running (the §8 scenario of the spec: boot on a running
zone raises StateError citing allowed installed, observed running, with
no mutating vector); shutdown, halt, reboot and execute blocked on zone
z2 observed installed. -/
theorem c1_state_guard_blocks_witness :
    guard_blocked "z1" 0 ((Zone.initZ "z1").boot false) envC1 [ZS_installed]
        [CMD_PFEXEC, CMD_ZONEADM, "-z", "z1", "boot"]
    ∧ guard_blocked "z1" 0 ((Zone.initZ "z1").ready) envC1 [ZS_installed]
        [CMD_PFEXEC, CMD_ZONEADM, "-z", "z1", "ready"]
    ∧ guard_blocked "z1" 0 ((Zone.initZ "z1").install false) envC1
        [ZS_configured] [CMD_PFEXEC, CMD_ZONEADM, "-z", "z1", "install"]
    ∧ guard_blocked "z1" 0 ((Zone.initZ "z1").uninstall) envC1
        [ZS_installed, ZS_incomplete]
        [CMD_PFEXEC, CMD_ZONEADM, "-z", "z1", "uninstall", "-F"]
    ∧ guard_blocked "z1" 0 ((Zone.initZ "z1").delete) envC1
        [ZS_configured, ZS_incomplete]
        [CMD_PFEXEC, CMD_ZONECFG, "-z", "z1", "delete", "-F"]
    ∧ guard_blocked "z2" 1 ((Zone.initZ "z2").shutdown) envC1b [ZS_running]
        [CMD_PFEXEC, CMD_ZONEADM, "-z", "z2", "shutdown"]
    ∧ guard_blocked "z2" 1 ((Zone.initZ "z2").halt) envC1b [ZS_running]
        [CMD_PFEXEC, CMD_ZONEADM, "-z", "z2", "halt"]
    ∧ guard_blocked "z2" 1 ((Zone.initZ "z2").reboot) envC1b [ZS_running]
        [CMD_PFEXEC, CMD_ZONEADM, "-z", "z2", "shutdown", "-r"]
    ∧ guard_blocked "z2" 1
        ((Zone.initZ "z2").execute "ls" execute_default_user false) envC1b
        [ZS_running] [CMD_PFEXEC, CMD_ZLOGIN, "-l", "root", "z2", "ls"] := by
  have h1 := c1_state_guard_blocks envC1 "z1"
    "7:z1:running:/zones/z1:u1:solaris:shared"
    "7" "running" "/zones/z1" "u1" "solaris" "shared" 0 "ls"
    (Or.inr ⟨by decide, rfl⟩) rfl rfl rfl
  have h2 := c1_state_guard_blocks envC1b "z2"
    "1:z2:installed:/zones/z2:u2:solaris:shared"
    "1" "installed" "/zones/z2" "u2" "solaris" "shared" 1 "ls"
    (Or.inr ⟨by decide, rfl⟩) rfl rfl rfl
  exact ⟨h1.1 (by decide), h1.2.1 (by decide),
    h1.2.2.2.2.2.1 (by decide), h1.2.2.2.2.2.2.1 (by decide),
    h1.2.2.2.2.2.2.2.1 (by decide),
    h2.2.2.1 (by decide), h2.2.2.2.1 (by decide), h2.2.2.2.2.1 (by decide),
    h2.2.2.2.2.2.2.2.2 (by decide)⟩

/-- C10: execute(cmd, user) builds the zlogin vector
[pfexec, zlogin, -l, user, zonename, cmd] when user is a non-empty
string (and the default user is the non-empty string root), and omits
the -l flag and the user argument entirely when user is None or the
empty string.  The hypotheses put the freshly re-queried zone in the
running state with an authorized caller; print_cmd mode returns the
vector without spawning it. -/
theorem c10_execute_argv (env : Env) (n line : String)
    (f0 f2 f3 f4 f5 f6 : String) (c : String)
    (hauth : AuthOk env)
    (hret : env.spawnRes (state_cmd n) = (0, line))
    (hsplit : py_split line ':' = [f0, n, f2, f3, f4, f5, f6])
    (hst : ZONE_STATE_lookup f2 = some ZS_running) :
    (∀ u : String, u ≠ "" →
      (Zone.initZ n).execute c (some u) true env [] =
        (auth_trace env ++ [state_cmd n],
         Except.ok (PyRet.cmds [[CMD_PFEXEC, CMD_ZLOGIN, "-l", u, n, c]])))
    ∧ ((Zone.initZ n).execute c none true env [] =
        (auth_trace env ++ [state_cmd n],
         Except.ok (PyRet.cmds [[CMD_PFEXEC, CMD_ZLOGIN, n, c]])))
    ∧ ((Zone.initZ n).execute c (some "") true env [] =
        (auth_trace env ++ [state_cmd n],
         Except.ok (PyRet.cmds [[CMD_PFEXEC, CMD_ZLOGIN, n, c]])))
    ∧ execute_default_user = some "root" := by
  have hmem : ZS_running ∈ [ZS_running] := by decide
  have hpass := zone_in_states_pass env hauth n line f0 f2 f3 f4 f5 f6
    ZS_running [ZS_running] hret hsplit hst hmem
  have hname : dget (refreshed_attrs f0 n f2 f3 f4 f5 f6) 1 = some n := rfl
  refine ⟨?_, ?_, ?_, rfl⟩
  · intro u hu
    simp [Zone.execute, M_bind_eq, M.bind, hpass, Zone.get_name, Zone.get_attr,
      ZONE_ENTRY_ZNAME, hname, M_pure_eq, M.pure, hu]
  · simp [Zone.execute, M_bind_eq, M.bind, hpass, Zone.get_name, Zone.get_attr,
      ZONE_ENTRY_ZNAME, hname, M_pure_eq, M.pure]
  · simp [Zone.execute, M_bind_eq, M.bind, hpass, Zone.get_name, Zone.get_attr,
      ZONE_ENTRY_ZNAME, hname, M_pure_eq, M.pure]

/-- A concrete environment for the C10 witness: a non-SunOS superuser and
a listing that reports zone web in the running state. -/
def envC10 : Env :=
  { uname0 := "Linux", uid := 0,
    spawnRes := fun a =>
      if a = state_cmd "web" then (0, "5:web:running:/zones/web:u2:solaris:shared")
      else (1, "") }

/-- Witness for C10 at a concrete environment, command and users. -/
theorem c10_execute_argv_witness :
    ((Zone.initZ "web").execute "ls -l" (some "admin") true envC10 [] =
      ([state_cmd "web"],
       Except.ok (PyRet.cmds
         [[CMD_PFEXEC, CMD_ZLOGIN, "-l", "admin", "web", "ls -l"]])))
    ∧ ((Zone.initZ "web").execute "ls -l" none true envC10 [] =
      ([state_cmd "web"],
       Except.ok (PyRet.cmds [[CMD_PFEXEC, CMD_ZLOGIN, "web", "ls -l"]])))
    ∧ ((Zone.initZ "web").execute "ls -l" (some "") true envC10 [] =
      ([state_cmd "web"],
       Except.ok (PyRet.cmds [[CMD_PFEXEC, CMD_ZLOGIN, "web", "ls -l"]])))
    ∧ execute_default_user = some "root" := by
  have h := c10_execute_argv envC10 "web" "5:web:running:/zones/web:u2:solaris:shared"
    "5" "running" "/zones/web" "u2" "solaris" "shared" "ls -l"
    (Or.inr ⟨by decide, rfl⟩) rfl rfl rfl
  exact ⟨h.1 "admin" (by decide), h.2.1, h.2.2.1, h.2.2.2⟩

/-- An environment with a SunOS platform, a non-superuser uid and a
profile listing that contains none of the required profiles. -/
def envC3 : Env :=
  { uname0 := "SunOS", uid := 1000,
    spawnRes := fun a =>
      if a = ["profiles"] then (0, "\tBasic Solaris User\n") else (1, "") }

/-- C3 (code bug evaluation): for a non-superuser caller on SunOS whose
profile list satisfies nothing of the required specification,
check_user_permissions returns the value False instead of raising
PrivilegesError: the SunOS branch returns the oneof result, so the uid
test and the raise statement are never reached. -/
theorem c3_check_returns_false_instead_of_raising :
    check_user_permissions default_profiles envC3 [] =
      ([["profiles"]], Except.ok (some false)) := by decide

/-- C4 (code bug evaluation): a caller profile list holding every name of
the conjunctive group term of the default required specification (Zone
Management and Zone Security) satisfies sublist_in, yet oneof rejects
it: the loop of oneof runs over the caller list, whose elements are all
strings, so the conjunctive-group branch never fires, and a bare string
is never equal to the nested group inside the specification. -/
theorem c4_group_term_never_satisfied :
    sublist_in
        [ProfItem.pname "Zone Management", ProfItem.pname "Zone Security"]
        ["Zone Management", "Zone Security"] = true
    ∧ oneof [ProfItem.pname "Zone Management", ProfItem.pname "Zone Security"]
        default_profiles = false := by decide

/-- An environment with a SunOS platform, a non-superuser uid, no
matching profile, and a zone z1 listed in the installed state. -/
def envC2 : Env :=
  { uname0 := "SunOS", uid := 1000,
    spawnRes := fun a =>
      if a = ["profiles"] then (0, "\tBasic Solaris User\n")
      else if a = state_cmd "z1" then (0, "1:z1:installed:/z/z1:u1:solaris:shared")
      else if a = [CMD_PFEXEC, CMD_ZONEADM, "-z", "z1", "boot"] then (0, "booted")
      else (1, "") }

/-- C2 (code bug evaluation): an unauthorized caller (SunOS, uid 1000,
no required profile: the permission check computes the value False) can
still run boot to completion: no AuthorizationError is raised and the
mutating boot vector is spawned, because check_user_permissions returns
its boolean instead of raising and no caller inspects that value. -/
theorem c2_unauthorized_boot_executes :
    check_user_permissions default_profiles envC2 [] =
      ([["profiles"]], Except.ok (some false))
    ∧ (Zone.initZ "z1").boot false envC2 [] =
      ([["profiles"], ["profiles"], state_cmd "z1", ["profiles"],
        [CMD_PFEXEC, CMD_ZONEADM, "-z", "z1", "boot"]],
       Except.ok (PyRet.outStr "booted")) := by decide

/-- An environment where zone src is listed in exactly the installed
state, with an authorized (non-SunOS superuser) caller. -/
def envC6 : Env :=
  { uname0 := "Linux", uid := 0,
    spawnRes := fun a =>
      if a = state_cmd "src" then (0, "1:src:installed:/z/src:u2:solaris:shared")
      else (1, "") }

/-- C6 (code bug evaluation): with the source zone observed in precisely
the installed state, dry-run clone does not return the clone vector: it
raises TypeError after the state re-query, because the allowed-states
argument of the guard is the bare int 1 (the source tuple is missing its
trailing comma) and the Python membership test over an int raises
TypeError; the non-dry-run branch would moreover reference the undefined
name install_cmd. -/
theorem c6_clone_always_typeerror :
    (Zone.initZ "tgt").clone (Zone.initZ "src") true envC6 [] =
      ([state_cmd "src"], Except.error Err.typeError) := by decide

/-- The Zone produced by parsing the C8 sample line. -/
def zoneMy : Zone :=
  ⟨[(1, "myzone"), (0, "0"), (2, "running"), (3, "/zones/myzone"),
    (4, "uuid1"), (5, "solaris"), (6, "shared")]⟩

/-- An inert environment (never consulted by non-refreshing reads). -/
def env0 : Env := { uname0 := "", uid := 0, spawnRes := fun _ => (1, "") }

/-- C8: parsing the listing output
0:myzone:running:/zones/myzone:uuid1:solaris:shared (plus trailing
newline) yields exactly one Zone whose name attribute is myzone, whose
raw state attribute is running and maps to the running state (code 0,
also via get_state without refresh), whose zonepath attribute is
/zones/myzone and whose brand attribute is solaris. -/
theorem c8_parse_sample_line :
    list_zones_out "0:myzone:running:/zones/myzone:uuid1:solaris:shared\n" 0
        none (fun _ _ => false) = Except.ok [zoneMy]
    ∧ dget zoneMy.attrs 1 = some "myzone"
    ∧ dget zoneMy.attrs 2 = some "running"
    ∧ zoneMy.get_state false env0 [] = ([], Except.ok (zoneMy, ZS_running))
    ∧ dget zoneMy.attrs 3 = some "/zones/myzone"
    ∧ dget zoneMy.attrs 5 = some "solaris" := by decide

/-- C9: set_attr rejects every key outside ZONE_ENTRY.values() with a
ZoneException — the operation returns no updated zone, so the attribute
dict is unchanged — and for every key of the enumeration it updates
exactly that field of the dict, leaving all other keys untouched. -/
theorem c9_set_attr (z : Zone) (k : Int) (v : String) :
    (k ∉ ZONE_ENTRY_values →
      z.set_attr k v = Except.error (Err.zoneError
        ("Unsupported ZONE_ENTRY attribute: " ++ toString k ++ ".")))
    ∧ (k ∈ ZONE_ENTRY_values →
      z.set_attr k v = Except.ok (Zone.mk (dset z.attrs k v))
      ∧ dget (dset z.attrs k v) k = some v
      ∧ ∀ k2 : Int, k2 ≠ k → dget (dset z.attrs k v) k2 = dget z.attrs k2) := by
  constructor
  · intro h
    simp [Zone.set_attr, h]
  · intro h
    exact ⟨by simp [Zone.set_attr, h], dget_dset_self z.attrs k v,
      fun k2 h2 => dget_dset_ne z.attrs k k2 v h2⟩

/-- Witness for C9: key 7 is rejected with the dict untouched, key 3
(the zonepath column) is set and only that field changes. -/
theorem c9_set_attr_witness :
    ((7 : Int) ∉ ZONE_ENTRY_values
     ∧ (Zone.initZ "z1").set_attr 7 "x" = Except.error (Err.zoneError
         ("Unsupported ZONE_ENTRY attribute: " ++ toString (7 : Int) ++ ".")))
    ∧ ((3 : Int) ∈ ZONE_ENTRY_values
       ∧ (Zone.initZ "z1").set_attr 3 "/p" =
           Except.ok (Zone.mk [(1, "z1"), (3, "/p")])
       ∧ dget [(1, "z1"), (3, "/p")] 3 = some "/p"
       ∧ dget [(1, "z1"), (3, "/p")] 1 = some "z1") := by
  have h7 := (c9_set_attr (Zone.initZ "z1") 7 "x").1 (by decide)
  have h3 := (c9_set_attr (Zone.initZ "z1") 3 "/p").2 (by decide)
  exact ⟨⟨by decide, h7⟩, ⟨by decide, h3.1, by decide, by decide⟩⟩

/-- C7: add_property capped-memory validates the option keys against the
closed schema physical/swap/locked by set equality before any external
command: a mismatching key set fails with ValueError and an empty spawn
trace; an exactly matching key set spawns exactly one vector beyond the
permission query — pfexec, zonecfg, -z, the zone name, and the
semicolon-joined script add capped-memory;set ...;set ...;set
...;end;exit built from the options. -/
theorem c7_add_property_capped_memory (env : Env) (n : String)
    (opts : List (String × String)) :
    (set_eq (opts.map Prod.fst) ["physical", "swap", "locked"] = false →
      (Zone.initZ n).add_property "capped-memory" opts false env [] =
        ([], Except.error Err.valueError))
    ∧ (set_eq (opts.map Prod.fst) ["physical", "swap", "locked"] = true →
       AuthOk env →
       (env.spawnRes [CMD_PFEXEC, CMD_ZONECFG, "-z", n,
          py_join ";" (["add capped-memory"]
            ++ opts.map (fun o => "set " ++ o.1 ++ "=" ++ o.2)
            ++ ["end", "exit"])]).1 = 0 →
       (Zone.initZ n).add_property "capped-memory" opts false env [] =
         (auth_trace env ++ [[CMD_PFEXEC, CMD_ZONECFG, "-z", n,
            py_join ";" (["add capped-memory"]
              ++ opts.map (fun o => "set " ++ o.1 ++ "=" ++ o.2)
              ++ ["end", "exit"])]],
          Except.ok PyRet.pyNone)) := by
  have hname : dget (Zone.initZ n).attrs 1 = some n := rfl
  constructor
  · intro h
    simp [Zone.add_property, Zone.get_name, Zone.get_attr, ZONE_ENTRY_ZNAME,
      hname, M_bind_eq, M.bind, M_pure_eq, M.pure, M.throwErr,
      available_properties, h]
  · intro h hauth hret
    have key := getoutputs_ok env hauth [CMD_PFEXEC, CMD_ZONECFG, "-z", n,
      py_join ";" ("add capped-memory" ::
        (opts.map (fun o => "set " ++ o.1 ++ "=" ++ o.2) ++ ["end", "exit"]))]
      hret []
    simp [Zone.add_property, Zone.get_name, Zone.get_attr, ZONE_ENTRY_ZNAME,
      hname, M_bind_eq, M.bind, M_pure_eq, M.pure,
      available_properties, h, key]

/-- An authorized environment in which every spawned command exits 0. -/
def envC7 : Env := { uname0 := "Linux", uid := 0, spawnRes := fun _ => (0, "") }

/-- Witness for C7: the two-key option set fails with ValueError and an
empty trace; the exact three-key option set spawns exactly the single
zonecfg vector with the well-formed script. -/
theorem c7_add_property_capped_memory_witness :
    ((Zone.initZ "m1").add_property "capped-memory"
        [("physical", "1G"), ("swap", "1G")] false envC7 [] =
      ([], Except.error Err.valueError))
    ∧ ((Zone.initZ "m1").add_property "capped-memory"
        [("physical", "1G"), ("swap", "1G"), ("locked", "1G")] false envC7 [] =
      ([[CMD_PFEXEC, CMD_ZONECFG, "-z", "m1",
         "add capped-memory;set physical=1G;set swap=1G;set locked=1G;end;exit"]],
       Except.ok PyRet.pyNone)) := by
  have h1 := (c7_add_property_capped_memory envC7 "m1"
    [("physical", "1G"), ("swap", "1G")]).1 (by decide)
  have h2 := (c7_add_property_capped_memory envC7 "m1"
    [("physical", "1G"), ("swap", "1G"), ("locked", "1G")]).2
    (by decide) (Or.inr ⟨by decide, rfl⟩) rfl
  refine ⟨h1, ?_⟩
  rw [h2]
  decide

theorem set_attr_loop_pres (fields : List String) (nm : String)
    (hm : fields.get? 1 = some nm) :
    ∀ (vals : List Int) (z z2 : Zone), dget z.attrs 1 = some nm →
      set_attr_loop z fields vals = Except.ok z2 → dget z2.attrs 1 = some nm := by
  intro vals
  induction vals with
  | nil =>
    intro z z2 hz h
    simp only [set_attr_loop] at h
    injection h with h
    rw [← h]
    exact hz
  | cons v rest ih =>
    intro z z2 hz h
    simp only [set_attr_loop] at h
    cases hf : fields.get? v.toNat with
    | none =>
      rw [hf] at h
      exact Except.noConfusion h
    | some s =>
      rw [hf] at h
      by_cases hv : v ∈ ZONE_ENTRY_values
      · simp only [Zone.set_attr, if_pos hv] at h
        refine ih (Zone.mk (dset z.attrs v s)) z2 ?_ h
        by_cases h1 : (1 : Int) = v
        · have hs : s = nm := by
            have hf1 : fields.get? 1 = some s := by rw [← h1] at hf; exact hf
            have := hf1.symm.trans hm
            injection this
          show dget (dset z.attrs v s) 1 = some nm
          rw [← h1, dget_dset_self z.attrs 1 s, hs]
        · show dget (dset z.attrs v s) 1 = some nm
          rw [dget_dset_ne z.attrs v 1 s h1]
          exact hz
      · simp only [Zone.set_attr, if_neg hv] at h
        exact Except.noConfusion h

theorem parse_zone_line_name (fields : List String) (z : Zone)
    (h : parse_zone_line fields = Except.ok z) :
    dget z.attrs 1 = fields.get? 1 := by
  unfold parse_zone_line at h
  cases hn : fields.get? ZONE_ENTRY_ZNAME.toNat with
  | none =>
    rw [hn] at h
    exact Except.noConfusion h
  | some nm =>
    rw [hn] at h
    have hm : fields.get? 1 = some nm := hn
    have hz : dget (Zone.initZ nm).attrs 1 = some nm := rfl
    rw [hm]
    exact set_attr_loop_pres fields nm hm ZONE_ENTRY_values (Zone.initZ nm) z hz h

theorem keep_line_none_eq (matcher : String → String → Bool) (nm : String) :
    keep_line none matcher nm = true := rfl

theorem keep_line_empty_eq (matcher : String → String → Bool) (nm : String) :
    keep_line (some "") matcher nm = true := rfl

theorem keep_line_ne (matcher : String → String → Bool) (p nm : String)
    (hp : ¬ p = "") : keep_line (some p) matcher nm = matcher p nm := by
  simp [keep_line, hp]

theorem parse_lines_empty_pat (matcher : String → String → Bool) :
    ∀ lines : List String,
      parse_lines matcher (some "") lines = parse_lines matcher none lines := by
  intro lines
  induction lines with
  | nil => rfl
  | cons line rest ih =>
    by_cases hl : line = ""
    · simp only [parse_lines, if_pos hl]
      exact ih
    · simp only [parse_lines, if_neg hl, keep_line_none_eq, keep_line_empty_eq,
        ih]

/-- The name-filtered line loop keeps exactly the zones of the unfiltered
loop whose parsed name attribute the matcher accepts, in order. -/
theorem parse_lines_filter (matcher : String → String → Bool) (p : String)
    (hp : ¬ p = "") :
    ∀ (lines : List String) (zs : List Zone),
      parse_lines matcher none lines = Except.ok zs →
      parse_lines matcher (some p) lines =
        Except.ok (zs.filter
          (fun z => matcher p ((dget z.attrs 1).getD ""))) := by
  intro lines
  induction lines with
  | nil =>
    intro zs h
    simp only [parse_lines] at h
    injection h with h
    rw [← h]
    rfl
  | cons line rest ih =>
    intro zs h
    by_cases hl : line = ""
    · simp only [parse_lines, if_pos hl] at h ⊢
      exact ih zs h
    · simp only [parse_lines, if_neg hl] at h ⊢
      cases hg : (py_split line ':').get? ZONE_ENTRY_ZNAME.toNat with
      | none =>
        rw [hg] at h
        exact Except.noConfusion h
      | some nm =>
        simp only [hg, keep_line_none_eq, if_true] at h
        simp only [keep_line_ne matcher p nm hp]
        cases hz : parse_zone_line (py_split line ':') with
        | error e =>
          rw [hz] at h
          exact Except.noConfusion h
        | ok z =>
          simp only [hz] at h ⊢
          cases hr : parse_lines matcher none rest with
          | error e =>
            rw [hr] at h
            exact Except.noConfusion h
          | ok zs2 =>
            simp only [hr] at h
            injection h with h
            have hname := parse_zone_line_name (py_split line ':') z hz
            have hg1 : (py_split line ':').get? 1 = some nm := hg
            have hgd : (dget z.attrs 1).getD "" = nm := by
              rw [hname, hg1]
              rfl
            rw [← h]
            by_cases hk : matcher p nm = true
            · rw [if_pos hk, ih zs2 hr]
              simp only [List.filter, hgd, hk]
            · rw [if_neg hk, ih zs2 hr]
              simp only [List.filter, hgd]
              rw [show matcher p nm = false from Bool.eq_false_iff.mpr hk]

/-- C5: for any listing output (with a clean exit code) and any pattern,
list_zones with the pattern returns exactly those zones of the
unfiltered listing over the same output whose name attribute the
anchored matcher accepts, preserved in the same relative order; re.match
is abstracted by the matcher parameter, whose only assumed property is
that the empty (falsy, hence unfiltered) pattern accepts every name. -/
theorem c5_list_zones_filter (out p : String)
    (matcher : String → String → Bool)
    (hempty : ∀ s, matcher "" s = true) (zs : List Zone)
    (h : list_zones_out out 0 none matcher = Except.ok zs) :
    list_zones_out out 0 (some p) matcher =
      Except.ok (zs.filter
        (fun z => matcher p ((dget z.attrs 1).getD ""))) := by
  have h0 : list_zones_out out 0 none matcher =
      parse_lines matcher none (py_split out '\n') := by
    simp [list_zones_out]
  have h0p : list_zones_out out 0 (some p) matcher =
      parse_lines matcher (some p) (py_split out '\n') := by
    simp [list_zones_out]
  rw [h0] at h
  rw [h0p]
  by_cases hp : p = ""
  · subst hp
    rw [parse_lines_empty_pat, h]
    congr 1
    exact (List.filter_eq_self.mpr (fun z _ => hempty _)).symm
  · exact parse_lines_filter matcher p hp (py_split out '\n') zs h

/-- A concrete anchored matcher for the C5 witness: pattern accepted as
a literal prefix of the name. -/
def matcherW : String → String → Bool := fun q s2 => q.data.isPrefixOf s2.data

/-- A two-line listing output for the C5 witness. -/
def outW : String := "0:alpha:running:/z/a:u:s:sh\n1:beta:running:/z/b:u:s:sh"

def zoneAlpha : Zone :=
  ⟨[(1, "alpha"), (0, "0"), (2, "running"), (3, "/z/a"),
    (4, "u"), (5, "s"), (6, "sh")]⟩

def zoneBeta : Zone :=
  ⟨[(1, "beta"), (0, "1"), (2, "running"), (3, "/z/b"),
    (4, "u"), (5, "s"), (6, "sh")]⟩

/-- Witness for C5: a two-zone listing, filtered with the pattern al,
keeps exactly the matching zone alpha, in order. -/
theorem c5_list_zones_filter_witness :
    (∀ s, matcherW "" s = true)
    ∧ list_zones_out outW 0 none matcherW = Except.ok [zoneAlpha, zoneBeta]
    ∧ list_zones_out outW 0 (some "al") matcherW =
        Except.ok ([zoneAlpha, zoneBeta].filter
          (fun z => matcherW "al" ((dget z.attrs 1).getD "")))
    ∧ [zoneAlpha, zoneBeta].filter
        (fun z => matcherW "al" ((dget z.attrs 1).getD "")) = [zoneAlpha] := by
  have hemp : ∀ s, matcherW "" s = true := by
    intro s
    show List.isPrefixOf "".data s.data = true
    have hd : "".data = ([] : List Char) := rfl
    rw [hd]
    cases s.data <;> rfl
  have h1 : list_zones_out outW 0 none matcherW =
      Except.ok [zoneAlpha, zoneBeta] := by decide
  exact ⟨hemp, h1,
    c5_list_zones_filter outW "al" matcherW hemp [zoneAlpha, zoneBeta] h1,
    by decide⟩

end Pyzone
